import Mathlib

/-!
Shallow embedding of the multimap_server node (src/main.cpp).

The per-map YAML parsing (Map::Map), the relative image-path resolution,
the top-level multimap document parsing (MultimapServer::MultimapServer),
endpoint creation, the service callback (Map::mapCallback) and the process
entry point (main) are translated from src/main.cpp.  YAML field
extraction (yaml-cpp) is abstracted as Option-valued fields: a field is
none when it is absent or its scalar extraction would throw, exactly the
condition caught by the per-field try/catch blocks in Map::Map.  Calls to
exit(-1) and uncaught exceptions reaching main are both embedded as
Except.error values that abort the whole build.

The image decoding and pixel-to-cell conversion live in
multimap_server/image_loader, which is not part of this repository's
sources; those definitions are modelled from the specification
(GridConverter, spec section 4.1), as is the POSIX dirname(3) libc call.
-/

/-- Conversion modes for turning pixel intensities into occupancy values
(the MapMode enumeration used by Map::Map: TRINARY, SCALE, RAW). -/
inductive MapMode where
  | TRINARY
  | SCALE
  | RAW
  deriving DecidableEq, Repr

/-- Modelled from the spec: a decoded pixel as delivered by the external
PixelDecoder — per-channel intensities in [0,255] and an optional alpha
value (none when the image has no alpha channel). -/
structure Pixel where
  channels : List Nat
  alpha : Option ℚ
  deriving DecidableEq, Repr

/-- Modelled from the spec: a decoded image, a 2-D buffer of pixels in
top-to-bottom row order. -/
structure Image where
  rows : List (List Pixel)
  deriving DecidableEq, Repr

/-- Modelled from the spec: normalized intensity of a pixel,
average of the color channels divided by 255. -/
def shade (p : Pixel) : ℚ :=
  (p.channels.sum : ℚ) / (255 * (p.channels.length : ℚ))

/-- Modelled from the spec: occupancy of a pixel; darker pixels denote
higher occupancy unless the negate flag flips the convention. -/
def occOf (negb : Bool) (p : Pixel) : ℚ :=
  if negb then shade p else 1 - shade p

/-- Modelled from the spec: a pixel with an alpha channel and alpha below 1
is fully or partially transparent. -/
def transparentP (p : Pixel) : Bool :=
  match p.alpha with
  | none => false
  | some a => decide (a < 1)

/-- Floor of a rational number as an integer. -/
def ratFloor (q : ℚ) : Int := Int.fdiv q.num (q.den : Int)

/-- Modelled from the spec: per-pixel conversion of GridConverter
(spec section 4.1) — transparent pixels are unknown regardless of mode;
TRINARY thresholds to 100 / 0 / -1 checking the occupied threshold first;
SCALE interpolates in the ambiguous band; RAW stores the scaled intensity
clamped to [0,255]. -/
def convertPixel (mode : MapMode) (negb : Bool) (occ_th free_th : ℚ) (p : Pixel) : Int :=
  if transparentP p then -1
  else
    match mode with
    | MapMode.TRINARY =>
      if occ_th < occOf negb p then 100
      else if occOf negb p < free_th then 0
      else -1
    | MapMode.SCALE =>
      if occ_th < occOf negb p then 100
      else if occOf negb p < free_th then 0
      else ratFloor (100 * (occOf negb p - free_th) / (occ_th - free_th))
    | MapMode.RAW =>
      min 255 (max 0 (ratFloor (occOf negb p * 255)))

/-- Modelled from the spec: whole-image conversion; image row r is written
to grid row height-1-r, i.e. the converted rows appear reversed. -/
def convertImage (mode : MapMode) (negb : Bool) (occ_th free_th : ℚ)
    (rows : List (List Pixel)) : List (List Int) :=
  (rows.map (fun row => row.map (convertPixel mode negb occ_th free_th))).reverse

/-- A per-map YAML document as seen through yaml-cpp scalar extraction:
each field is none when absent or when extraction of the expected scalar
shape would throw (the condition caught by the try/catch in Map::Map). -/
structure MapYaml where
  resolution : Option ℚ
  negate : Option Int
  occupied_thresh : Option ℚ
  free_thresh : Option ℚ
  mode : Option String
  origin : Option (ℚ × ℚ × ℚ)
  image : Option String
  deriving DecidableEq, Repr

/-- Sequencing of steps in Map::Map: an earlier exit(-1) aborts everything
after it. -/
def exBind {α β : Type} : Except String α → (α → Except String β) → Except String β
  | Except.error e, _ => Except.error e
  | Except.ok a, f => f a

/-- Extraction of a required field: absence triggers the ROS_ERROR plus
exit(-1) path of the corresponding try/catch block. -/
def req {α : Type} : Option α → String → Except String α
  | none, msg => Except.error msg
  | some v, _ => Except.ok v

/-- Whether a build step succeeded (no exit was taken). -/
def exOk {α : Type} : Except String α → Bool
  | Except.ok _ => true
  | Except.error _ => false

def resolutionErrMsg : String := "The map does not contain a resolution tag or it is invalid."

def negateErrMsg : String := "The map does not contain a negate tag or it is invalid."

def occupiedErrMsg : String := "The map does not contain an occupied_thresh tag or it is invalid."

def freeErrMsg : String := "The map does not contain a free_thresh tag or it is invalid."

def originErrMsg : String := "The map does not contain an origin tag or it is invalid."

def imageErrMsg : String := "The map does not contain an image tag or it is invalid."

def emptyImageErrMsg : String := "The image tag cannot be an empty string."

/-- Mode tag handling in Map::Map lines 108-125: an absent (or
non-extractable) mode tag is caught and defaults to TRINARY; a present
text that is not trinary/scale/raw hits ROS_ERROR plus exit(-1). -/
def parseMode : Option String → Except String MapMode
  | none => Except.ok MapMode.TRINARY
  | some s =>
    if s = "trinary" then Except.ok MapMode.TRINARY
    else if s = "scale" then Except.ok MapMode.SCALE
    else if s = "raw" then Except.ok MapMode.RAW
    else Except.error ("Invalid mode tag " ++ s ++ ".")

/-- POSIX dirname(3) semantics (the libc call used by Map::Map to resolve
relative image paths against the per-map file's directory). -/
def dirName (s : String) : String :=
  let r1 := s.data.reverse.dropWhile (fun c => c = '/')
  if s.data.isEmpty then "."
  else if r1.isEmpty then "/"
  else
    let r2 := r1.dropWhile (fun c => c ≠ '/')
    if r2.isEmpty then "."
    else
      let r3 := r2.dropWhile (fun c => c = '/')
      if r3.isEmpty then "/" else String.mk r3.reverse

/-- The validated parameters extracted by Map::Map before the image load. -/
structure MapDecl where
  mapfname : String
  resolution : ℚ
  negate : Int
  occ_th : ℚ
  free_th : ℚ
  mode : MapMode
  origin : ℚ × ℚ × ℚ
  deriving DecidableEq, Repr

/-- Field extraction and validation of Map::Map (lines 84-152), in source
order: resolution, negate, occupied_thresh, free_thresh, mode, origin,
image; an empty image tag is an error, an image path not starting with
'/' is prefixed with the directory of the per-map file fname. -/
def parseMapDecl (fname : String) (doc : MapYaml) : Except String MapDecl :=
  exBind (req doc.resolution resolutionErrMsg) fun resolution =>
  exBind (req doc.negate negateErrMsg) fun negValue =>
  exBind (req doc.occupied_thresh occupiedErrMsg) fun occ_th =>
  exBind (req doc.free_thresh freeErrMsg) fun free_th =>
  exBind (parseMode doc.mode) fun mode =>
  exBind (req doc.origin originErrMsg) fun origin =>
  exBind (req doc.image imageErrMsg) fun image =>
  if image.length = 0 then Except.error emptyImageErrMsg
  else
    Except.ok
      { mapfname := if image.front = '/' then image else dirName fname ++ "/" ++ image
        resolution := resolution
        negate := negValue
        occ_th := occ_th
        free_th := free_th
        mode := mode
        origin := origin }

/-- The nav_msgs/MapMetaData message: grid metadata. -/
structure MapMetaData where
  map_load_time : Nat
  resolution : ℚ
  width : Nat
  height : Nat
  origin : ℚ × ℚ × ℚ
  deriving DecidableEq, Repr

/-- The nav_msgs/OccupancyGrid message: header plus metadata plus cells. -/
structure OccupancyGrid where
  frame_id : String
  stamp : Nat
  info : MapMetaData
  data : List Int
  deriving DecidableEq, Repr

/-- A constructed Map object together with the endpoints it advertised and
the messages it published at construction. -/
structure MapUnit where
  service_name : String
  metadata_topic_name : String
  map_topic_name : String
  meta_data_message : MapMetaData
  map_resp : OccupancyGrid
  published_metadata : List MapMetaData
  published_maps : List OccupancyGrid
  deriving DecidableEq, Repr

/-- Modelled from the spec: the in-memory part of
multimap_server::loadMapFromFile (GridConverter contract, spec section
4.1) plus the header stamping of Map::Map lines 164-173 — grid dimensions
equal the image dimensions, resolution and origin are copied verbatim from
the declaration, the load time is stamped at conversion completion. -/
def loadedGrid (decl : MapDecl) (img : Image) (frameId : String) (now : Nat) : OccupancyGrid :=
  { frame_id := frameId
    stamp := now
    info :=
      { map_load_time := now
        resolution := decl.resolution
        width := (img.rows.headD []).length
        height := img.rows.length
        origin := decl.origin }
    data := List.flatten (convertImage decl.mode (decl.negate != 0) decl.occ_th decl.free_th img.rows) }

/-- Endpoint creation and latched publication of Map::Map lines 173-186:
meta_data_message_ is assigned map_resp_.map.info, the three endpoint
names are built from the namespace and the desired map name, and each
latched publisher publishes exactly once. -/
def mkMapUnit (ns desiredName frameId : String) (decl : MapDecl) (img : Image) (now : Nat) : MapUnit :=
  let grid := loadedGrid decl img frameId now
  { service_name := ns ++ "/" ++ desiredName ++ "/" ++ "static_map"
    metadata_topic_name := ns ++ "/" ++ desiredName ++ "/" ++ "map_metadata"
    map_topic_name := ns ++ "/" ++ desiredName ++ "/" ++ "map"
    meta_data_message := grid.info
    map_resp := grid
    published_metadata := [grid.info]
    published_maps := [grid] }

/-- Map::mapCallback: ignores the (empty) request, deep-copies map_resp_
into the response and returns true; the Map object is not mutated. -/
def mapCallback (m : MapUnit) : Bool × OccupancyGrid × MapUnit :=
  (true, m.map_resp, m)

/-- A namespace record of the top-level document: its scalar fields as a
key-value list (so that the key actually looked up is observable) and its
maps mapping in iteration order, map name to per-map file path. -/
structure NamespaceYaml where
  fields : List (String × String)
  maps : List (String × String)
  deriving DecidableEq, Repr

/-- The files visible to the process: the top-level document, the per-map
YAML documents and the decodable image files, each none when the path is
missing, unreadable or unparsable. -/
structure FileSys where
  top : String → Option (List (String × NamespaceYaml))
  mapYaml : String → Option MapYaml
  image : String → Option Image

/-- MultimapServer::MultimapServer line 240: the frame of a namespace is
read from the field named global_frame of its record. -/
def getGlobalFrame (r : NamespaceYaml) : Option String :=
  r.fields.lookup "global_frame"

/-- Message printed by main when the yaml-cpp conversion of a missing
global_frame field throws (the exception text itself comes from the
external yaml-cpp library). -/
def frameErrMsg : String := "multimap_server exception: bad conversion"

/-- Map::Map as a whole: open the per-map file (exit on failure), extract
and validate the fields, load the image (exit on failure), build the grid
and advertise plus publish the three endpoints. -/
def constructMap (fname ns desiredName frameId : String) (fs : FileSys) (now : Nat) :
    Except String MapUnit :=
  exBind (req (fs.mapYaml fname) ("Multimap_server could not open " ++ fname ++ ".")) fun doc =>
  exBind (parseMapDecl fname doc) fun decl =>
  exBind (req (fs.image decl.mapfname) ("failed to open image file " ++ decl.mapfname)) fun img =>
  Except.ok (mkMapUnit ns desiredName frameId decl img now)

/-- The inner loop of MultimapServer::MultimapServer: construct one Map per
entry of the maps mapping, passing the entry's value as the per-map file
path; any failure aborts the whole build. -/
def buildMapsList (fs : FileSys) (now : Nat) (ns frame : String) :
    List (String × String) → Except String (List MapUnit)
  | [] => Except.ok []
  | (name, mpath) :: rest =>
    exBind (constructMap mpath ns name frame fs now) fun m =>
    exBind (buildMapsList fs now ns frame rest) fun ms =>
    Except.ok (m :: ms)

/-- The outer loop of MultimapServer::MultimapServer: for each namespace
record read its global_frame field (a missing field throws, reaching the
catch in main) and build all of its maps. -/
def buildNamespaces (fs : FileSys) (now : Nat) :
    List (String × NamespaceYaml) → Except String (List MapUnit)
  | [] => Except.ok []
  | (nsName, r) :: rest =>
    match getGlobalFrame r with
    | none => Except.error frameErrMsg
    | some frame =>
      exBind (buildMapsList fs now nsName frame r.maps) fun ms =>
      exBind (buildNamespaces fs now rest) fun ms2 =>
      Except.ok (ms ++ ms2)

/-- The USAGE string of main.cpp. -/
def usageMsg : String :=
  "\nUSAGE: multimap_server <multimap_server_config.yaml>\n  multimap_server_config.yaml: Indicates which maps are going to be loaded and info on how to do it"

/-- Outcome of running the process: either it exited with a status code
after printing a diagnostic message, or it reached ros::spin() serving the
given list of map units. -/
inductive MainOutcome where
  | exited : Int → String → MainOutcome
  | serving : List MapUnit → MainOutcome
  deriving DecidableEq, Repr

/-- main: with anything other than exactly one argument print USAGE and
exit(-1); otherwise open the top-level file (exit on failure), build every
namespace and either exit on the first error or start serving. -/
def runMain (args : List String) (fs : FileSys) (now : Nat) : MainOutcome :=
  match args with
  | [fname] =>
    match fs.top fname with
    | none => MainOutcome.exited (-1) ("Multimap_server could not open " ++ fname ++ ".")
    | some doc =>
      match buildNamespaces fs now doc with
      | Except.error e => MainOutcome.exited (-1) e
      | Except.ok units => MainOutcome.serving units
  | _ => MainOutcome.exited (-1) usageMsg

/-- A fully black opaque pixel. -/
def pixBlack : Pixel := { channels := [0], alpha := none }

/-- A fully white opaque pixel. -/
def pixWhite : Pixel := { channels := [255], alpha := none }

/-- A 1 by 1 all-white image. -/
def img1 : Image := { rows := [[pixWhite]] }

/-- A per-map document with every field present and valid. -/
def docOk : MapYaml :=
  { resolution := some (1 / 20)
    negate := some 0
    occupied_thresh := some (65 / 100)
    free_thresh := some (1 / 5)
    mode := some "trinary"
    origin := some (0, 0, 0)
    image := some "m.png" }

/-- docOk with a mode tag that is genuinely absent. -/
def docNoMode : MapYaml := { docOk with mode := none }

/-- docOk with a negative resolution. -/
def negResDoc : MapYaml := { docOk with resolution := some (-1) }

/-- The declaration Map::Map extracts from docOk read from /cfg/m.yaml. -/
def declGood : MapDecl :=
  { mapfname := "/cfg/m.png"
    resolution := 1 / 20
    negate := 0
    occ_th := 65 / 100
    free_th := 1 / 5
    mode := MapMode.TRINARY
    origin := (0, 0, 0) }

/-- A namespace record with a well-formed global_frame field and one map. -/
def nsGood : NamespaceYaml :=
  { fields := [("global_frame", "map")], maps := [("m0", "/cfg/m.yaml")] }

/-- A file system on which the whole build succeeds. -/
def fsGood : FileSys :=
  { top := fun s => if s = "top.yaml" then some [("ns0", nsGood)] else none
    mapYaml := fun s => if s = "/cfg/m.yaml" then some docOk else none
    image := fun s => if s = "/cfg/m.png" then some img1 else none }

/-- fsGood with every image file missing. -/
def fsBadImg : FileSys :=
  { top := fsGood.top
    mapYaml := fsGood.mapYaml
    image := fun _ => none }

/-- A file system whose per-map document carries a negative resolution. -/
def fsNegRes : FileSys :=
  { top := fun _ => none
    mapYaml := fun s => if s = "/cfg/m.yaml" then some negResDoc else none
    image := fun s => if s = "/cfg/m.png" then some img1 else none }

/-- A file system with no readable files at all. -/
def fsEmpty : FileSys :=
  { top := fun _ => none
    mapYaml := fun _ => none
    image := fun _ => none }

/-- The MapUnit built from declGood and img1 in namespace ns0. -/
def unitGood : MapUnit := mkMapUnit "ns0" "m0" "map" declGood img1 0

theorem exBind_ok_iff {α β : Type} {e : Except String α} {f : α → Except String β} {b : β} :
    exBind e f = Except.ok b ↔ ∃ a, e = Except.ok a ∧ f a = Except.ok b := by
  cases e <;> simp [exBind]

theorem req_ok_iff {α : Type} {o : Option α} {msg : String} {a : α} :
    req o msg = Except.ok a ↔ o = some a := by
  cases o <;> simp [req]

theorem exOk_false_iff {α : Type} {e : Except String α} :
    exOk e = false ↔ ∃ msg, e = Except.error msg := by
  cases e <;> simp [exOk]

theorem exOk_true_iff {α : Type} {e : Except String α} :
    exOk e = true ↔ ∃ a, e = Except.ok a := by
  cases e <;> simp [exOk]

/-- Claim C1 (spec-modelled conversion): every TRINARY output cell is one
of -1, 0, 100; an opaque pixel whose occupancy exceeds occupied_thresh
yields 100; in a valid declaration (free_thresh at most occupied_thresh)
an opaque pixel whose occupancy is below free_thresh yields 0. -/
theorem trinary_cell_values :
    (∀ (negb : Bool) (occ_th free_th : ℚ) (rows : List (List Pixel)),
       ∀ row ∈ convertImage MapMode.TRINARY negb occ_th free_th rows,
         ∀ v ∈ row, v = -1 ∨ v = 0 ∨ v = 100)
    ∧ (∀ (negb : Bool) (occ_th free_th : ℚ) (p : Pixel), transparentP p = false →
         occ_th < occOf negb p → convertPixel MapMode.TRINARY negb occ_th free_th p = 100)
    ∧ (∀ (negb : Bool) (occ_th free_th : ℚ) (p : Pixel), free_th ≤ occ_th →
         transparentP p = false → occOf negb p < free_th →
         convertPixel MapMode.TRINARY negb occ_th free_th p = 0) := by
  refine ⟨?_, ?_, ?_⟩
  · intro negb occ_th free_th rows row hrow v hv
    rw [convertImage, List.mem_reverse] at hrow
    obtain ⟨prow, _, rfl⟩ := List.mem_map.mp hrow
    obtain ⟨p, _, rfl⟩ := List.mem_map.mp hv
    unfold convertPixel
    cases ht : transparentP p
    · simp only [ht, Bool.false_eq_true, if_false]
      by_cases h1 : occ_th < occOf negb p
      · simp [h1]
      · by_cases h2 : occOf negb p < free_th <;> simp [h1, h2]
    · simp [ht]
  · intro negb occ_th free_th p ht hocc
    simp [convertPixel, ht, hocc]
  · intro negb occ_th free_th p hle ht hfree
    have hno : ¬ occ_th < occOf negb p :=
      not_lt.mpr (le_of_lt (lt_of_lt_of_le hfree hle))
    simp [convertPixel, ht, hno, hfree]

/-- Witness for C1 at a 1 by 1 black image with thresholds 0.65 / 0.2. -/
theorem trinary_cell_values_witness :
    ((100 : Int) = -1 ∨ (100 : Int) = 0 ∨ (100 : Int) = 100)
    ∧ convertPixel MapMode.TRINARY false (65 / 100) (1 / 5) pixBlack = 100
    ∧ convertPixel MapMode.TRINARY false (65 / 100) (1 / 5) pixWhite = 0 :=
  ⟨trinary_cell_values.1 false (65 / 100) (1 / 5) [[pixBlack]] [100]
      (of_decide_eq_true (by with_unfolding_all rfl)) 100 (by simp),
   trinary_cell_values.2.1 false (65 / 100) (1 / 5) pixBlack rfl
      (of_decide_eq_true (by with_unfolding_all rfl)),
   trinary_cell_values.2.2 false (65 / 100) (1 / 5) pixWhite
      (of_decide_eq_true (by with_unfolding_all rfl)) rfl
      (of_decide_eq_true (by with_unfolding_all rfl))⟩

theorem parseMapDecl_ok_inv {fname : String} {doc : MapYaml} {decl : MapDecl}
    (h : parseMapDecl fname doc = Except.ok decl) :
    ∃ r n o f m og img,
      doc.resolution = some r ∧ doc.negate = some n ∧ doc.occupied_thresh = some o ∧
      doc.free_thresh = some f ∧ parseMode doc.mode = Except.ok m ∧ doc.origin = some og ∧
      doc.image = some img ∧ ¬ img.length = 0 ∧
      decl = { mapfname := if img.front = '/' then img else dirName fname ++ "/" ++ img
               resolution := r
               negate := n
               occ_th := o
               free_th := f
               mode := m
               origin := og } := by
  unfold parseMapDecl at h
  simp only [exBind_ok_iff, req_ok_iff] at h
  obtain ⟨r, hr, n, hn, o, ho, f, hf, m, hm, og, hog, img, himg, hfinal⟩ := h
  by_cases hlen : img.length = 0
  · rw [if_pos hlen] at hfinal
    exact absurd hfinal (by simp)
  · rw [if_neg hlen] at hfinal
    refine ⟨r, n, o, f, m, og, img, hr, hn, ho, hf, hm, hog, himg, hlen, ?_⟩
    exact (Except.ok.injEq _ _ ▸ hfinal).symm

theorem parseMapDecl_ok_build {fname : String} {doc : MapYaml} {r : ℚ} {n : Int}
    {o f : ℚ} {m : MapMode} {og : ℚ × ℚ × ℚ} {img : String}
    (hr : doc.resolution = some r) (hn : doc.negate = some n)
    (ho : doc.occupied_thresh = some o) (hf : doc.free_thresh = some f)
    (hm : parseMode doc.mode = Except.ok m) (hog : doc.origin = some og)
    (himg : doc.image = some img) (hlen : ¬ img.length = 0) :
    parseMapDecl fname doc =
      Except.ok
        { mapfname := if img.front = '/' then img else dirName fname ++ "/" ++ img
          resolution := r
          negate := n
          occ_th := o
          free_th := f
          mode := m
          origin := og } := by
  unfold parseMapDecl
  simp only [exBind_ok_iff, req_ok_iff]
  exact ⟨r, hr, n, hn, o, ho, f, hf, m, hm, og, hog, img, himg, by rw [if_neg hlen]⟩

theorem parseMode_unrecognized {s : String} (h1 : ¬ s = "trinary") (h2 : ¬ s = "scale")
    (h3 : ¬ s = "raw") : parseMode (some s) = Except.error ("Invalid mode tag " ++ s ++ ".") := by
  simp [parseMode, h1, h2, h3]

/-- Claim C2: an absent mode tag defaults to TRINARY in the parsed
declaration, while a present mode text that is none of trinary, scale, raw
is rejected by parseMode and makes the whole per-map parse fail (the
exit(-1) path); it is never silently defaulted. -/
theorem mode_default_and_reject :
    (∀ (fname : String) (doc : MapYaml) (decl : MapDecl), doc.mode = none →
       parseMapDecl fname doc = Except.ok decl → decl.mode = MapMode.TRINARY)
    ∧ (∀ s : String, ¬ s = "trinary" → ¬ s = "scale" → ¬ s = "raw" →
         parseMode (some s) = Except.error ("Invalid mode tag " ++ s ++ "."))
    ∧ (∀ (fname : String) (doc : MapYaml) (s : String), doc.mode = some s →
         ¬ s = "trinary" → ¬ s = "scale" → ¬ s = "raw" →
         exOk (parseMapDecl fname doc) = false) := by
  refine ⟨?_, fun s h1 h2 h3 => parseMode_unrecognized h1 h2 h3, ?_⟩
  · intro fname doc decl hmode hok
    obtain ⟨r, n, o, f, m, og, img, _, _, _, _, hm, _, _, _, hdecl⟩ := parseMapDecl_ok_inv hok
    rw [hmode] at hm
    have : m = MapMode.TRINARY := by
      have h := hm
      simp [parseMode] at h
      exact h.symm
    rw [hdecl, this]
  · intro fname doc s hmode h1 h2 h3
    cases h : parseMapDecl fname doc with
    | error e => simp [exOk]
    | ok decl =>
      exfalso
      obtain ⟨r, n, o, f, m, og, img, _, _, _, _, hm, _, _, _, _⟩ := parseMapDecl_ok_inv h
      rw [hmode, parseMode_unrecognized h1 h2 h3] at hm
      exact Except.noConfusion hm

/-- Witness for C2: a document without a mode tag parses to a TRINARY
declaration, and the unrecognized mode text bogus is a hard error. -/
theorem mode_default_and_reject_witness :
    declGood.mode = MapMode.TRINARY
    ∧ parseMode (some "bogus") = Except.error ("Invalid mode tag " ++ "bogus" ++ ".")
    ∧ exOk (parseMapDecl "/cfg/m.yaml" { docOk with mode := some "bogus" }) = false :=
  ⟨mode_default_and_reject.1 "/cfg/m.yaml" docNoMode declGood rfl rfl,
   mode_default_and_reject.2.1 "bogus" (by decide) (by decide) (by decide),
   mode_default_and_reject.2.2 "/cfg/m.yaml" { docOk with mode := some "bogus" } "bogus" rfl
     (by decide) (by decide) (by decide)⟩

/-- Claim C3: a successfully parsed declaration has an absolute image path
taken verbatim, and any other image path prefixed with the directory of
the per-map configuration file fname; the build loop hands each Map
constructor the per-map file path from the maps mapping, so that fname is
the per-map file, not the top-level file and not a working directory. -/
theorem image_path_resolution :
    (∀ (fname : String) (doc : MapYaml) (decl : MapDecl),
       parseMapDecl fname doc = Except.ok decl →
       ∃ img, doc.image = some img ∧ ¬ img.length = 0 ∧
         (img.front = '/' → decl.mapfname = img) ∧
         (¬ img.front = '/' → decl.mapfname = dirName fname ++ "/" ++ img))
    ∧ (∀ (fs : FileSys) (now : Nat) (ns frame name mpath : String)
         (rest : List (String × String)) (ms : List MapUnit),
         buildMapsList fs now ns frame ((name, mpath) :: rest) = Except.ok ms →
         ∃ m ms2, ms = m :: ms2 ∧ constructMap mpath ns name frame fs now = Except.ok m) := by
  constructor
  · intro fname doc decl h
    obtain ⟨r, n, o, f, m, og, img, _, _, _, _, _, _, himg, hlen, hdecl⟩ := parseMapDecl_ok_inv h
    refine ⟨img, himg, hlen, ?_, ?_⟩
    · intro habs
      rw [hdecl]
      simp [habs]
    · intro hrel
      rw [hdecl]
      simp [hrel]
  · intro fs now ns frame name mpath rest ms h
    unfold buildMapsList at h
    simp only [exBind_ok_iff] at h
    obtain ⟨m, hm, ms1, _, hcons⟩ := h
    exact ⟨m, ms1, (Except.ok.injEq _ _ ▸ hcons).symm, hm⟩

/-- Witness for C3: docOk declares the relative image m.png and is read
from /cfg/m.yaml, so the image is loaded from /cfg/m.png. -/
theorem image_path_resolution_witness :
    ∃ img, docOk.image = some img ∧ ¬ img.length = 0 ∧
      (img.front = '/' → declGood.mapfname = img) ∧
      (¬ img.front = '/' → declGood.mapfname = dirName "/cfg/m.yaml" ++ "/" ++ img) :=
  image_path_resolution.1 "/cfg/m.yaml" docOk declGood rfl

theorem buildMapsList_fails {fs : FileSys} {now : Nat} {ns frame name mpath : String}
    (hbad : exOk (constructMap mpath ns name frame fs now) = false) :
    ∀ entries : List (String × String), (name, mpath) ∈ entries →
      exOk (buildMapsList fs now ns frame entries) = false := by
  intro entries
  induction entries with
  | nil => intro h; cases h
  | cons head rest ih =>
    intro hmem
    obtain ⟨name0, mpath0⟩ := head
    cases hc : constructMap mpath0 ns name0 frame fs now with
    | error e => simp [buildMapsList, hc, exBind, exOk]
    | ok m =>
      have htail : (name, mpath) ∈ rest := by
        rcases List.mem_cons.mp hmem with heq | htl
        · exfalso
          obtain ⟨h1, h2⟩ := Prod.mk.injEq .. ▸ heq
          rw [← h1, ← h2] at hc
          rw [hc] at hbad
          exact Bool.noConfusion hbad
        · exact htl
      have hr := ih htail
      cases hrest : buildMapsList fs now ns frame rest with
      | error e => simp [buildMapsList, hc, hrest, exBind, exOk]
      | ok ms =>
        rw [hrest] at hr
        exact absurd hr (by simp [exOk])

theorem buildNamespaces_fails {fs : FileSys} {now : Nat} {nsName : String}
    {r : NamespaceYaml}
    (hbad : getGlobalFrame r = none ∨
      ∃ frame name mpath, getGlobalFrame r = some frame ∧ (name, mpath) ∈ r.maps ∧
        exOk (constructMap mpath nsName name frame fs now) = false) :
    ∀ doc : List (String × NamespaceYaml), (nsName, r) ∈ doc →
      exOk (buildNamespaces fs now doc) = false := by
  intro doc
  induction doc with
  | nil => intro h; cases h
  | cons head rest ih =>
    intro hmem
    obtain ⟨n0, r0⟩ := head
    rcases List.mem_cons.mp hmem with heq | htl
    · obtain ⟨h1, h2⟩ := Prod.mk.injEq .. ▸ heq
      rw [← h1, ← h2]
      rcases hbad with hnone | ⟨frame, name, mpath, hframe, hmm, hcbad⟩
      · simp [buildNamespaces, hnone, exOk]
      · have hml := buildMapsList_fails hcbad r.maps hmm
        cases hl : buildMapsList fs now nsName frame r.maps with
        | error e => simp [buildNamespaces, hframe, hl, exBind, exOk]
        | ok ms =>
          rw [hl] at hml
          exact absurd hml (by simp [exOk])
    · have hr := ih htl
      cases hg : getGlobalFrame r0 with
      | none => simp [buildNamespaces, hg, exOk]
      | some frame0 =>
        cases hl : buildMapsList fs now n0 frame0 r0.maps with
        | error e => simp [buildNamespaces, hg, hl, exBind, exOk]
        | ok ms =>
          cases hrest : buildNamespaces fs now rest with
          | error e => simp [buildNamespaces, hg, hl, hrest, exBind, exOk]
          | ok ms2 =>
            rw [hrest] at hr
            exact absurd hr (by simp [exOk])

/-- Claim C4: the build phase is all-or-nothing — reaching the serving
phase means every namespace and every map built successfully; one bad map
anywhere (a failed field validation, an unreadable per-map file or a
failed image load, all of which make constructMap fail) makes the whole
build fail; and a failed build means the process exits with status -1, so
no partial set of endpoints is ever served. -/
theorem build_all_or_nothing :
    (∀ (args : List String) (fs : FileSys) (now : Nat) (units : List MapUnit),
       runMain args fs now = MainOutcome.serving units →
       ∃ fname doc, args = [fname] ∧ fs.top fname = some doc ∧
         buildNamespaces fs now doc = Except.ok units)
    ∧ (∀ (fs : FileSys) (now : Nat) (doc : List (String × NamespaceYaml))
         (nsName : String) (r : NamespaceYaml), (nsName, r) ∈ doc →
         (getGlobalFrame r = none ∨
           ∃ frame name mpath, getGlobalFrame r = some frame ∧ (name, mpath) ∈ r.maps ∧
             exOk (constructMap mpath nsName name frame fs now) = false) →
         exOk (buildNamespaces fs now doc) = false)
    ∧ (∀ (fname : String) (fs : FileSys) (now : Nat) (doc : List (String × NamespaceYaml)),
         fs.top fname = some doc → exOk (buildNamespaces fs now doc) = false →
         ∃ msg, runMain [fname] fs now = MainOutcome.exited (-1) msg) := by
  refine ⟨?_, fun fs now doc nsName r hmem hbad => buildNamespaces_fails hbad doc hmem, ?_⟩
  · intro args fs now units h
    match args with
    | [] => exact absurd h (by simp [runMain])
    | [fname] =>
      cases htop : fs.top fname with
      | none =>
        simp only [runMain, htop] at h
        exact MainOutcome.noConfusion h
      | some doc =>
        cases hb : buildNamespaces fs now doc with
        | error e =>
          simp only [runMain, htop, hb] at h
          exact MainOutcome.noConfusion h
        | ok us =>
          simp only [runMain, htop, hb] at h
          have : us = units := MainOutcome.serving.injEq .. ▸ h
          exact ⟨fname, doc, rfl, htop, by rw [hb, this]⟩
    | a :: b :: t => exact absurd h (by simp [runMain])
  · intro fname fs now doc htop hfail
    rw [exOk_false_iff] at hfail
    obtain ⟨msg, hmsg⟩ := hfail
    exact ⟨msg, by simp [runMain, htop, hmsg]⟩

/-- Witness for C4: with the image file missing, the single-namespace
document fails to build as a whole. -/
theorem build_all_or_nothing_witness :
    exOk (buildNamespaces fsBadImg 0 [("ns0", nsGood)]) = false :=
  build_all_or_nothing.2.1 fsBadImg 0 [("ns0", nsGood)] "ns0" nsGood (by simp)
    (Or.inr ⟨"map", "m0", "/cfg/m.yaml", rfl, by simp [nsGood], rfl⟩)

/-- Counterexample to C5: a per-map declaration with resolution -1 is not
rejected — Map construction succeeds and produces a MapUnit. -/
theorem resolution_positivity_cex :
    negResDoc.resolution = some (-1)
    ∧ exOk (constructMap "/cfg/m.yaml" "ns0" "m0" "map" fsNegRes 0) = true :=
  ⟨rfl, rfl⟩

/-- Claim C5 as amended: a missing (or non-scalar) resolution tag is a
fatal configuration error, but no sign check is performed — with the other
fields valid, a declaration parses successfully for any resolution value,
zero or negative included, and the parsed declaration carries it. -/
theorem resolution_parse_no_sign_check :
    (∀ (fname : String) (doc : MapYaml), doc.resolution = none →
       parseMapDecl fname doc = Except.error resolutionErrMsg)
    ∧ (∀ (fname : String) (doc : MapYaml) (r : ℚ), doc.resolution = some r →
         (∃ n, doc.negate = some n) → (∃ o, doc.occupied_thresh = some o) →
         (∃ f, doc.free_thresh = some f) → (∃ m, parseMode doc.mode = Except.ok m) →
         (∃ og, doc.origin = some og) → (∃ img, doc.image = some img ∧ ¬ img.length = 0) →
         ∃ decl, parseMapDecl fname doc = Except.ok decl ∧ decl.resolution = r) := by
  constructor
  · intro fname doc h
    unfold parseMapDecl
    rw [h]
    rfl
  · intro fname doc r hr ⟨n, hn⟩ ⟨o, ho⟩ ⟨f, hf⟩ ⟨m, hm⟩ ⟨og, hog⟩ ⟨img, himg, hlen⟩
    exact ⟨_, parseMapDecl_ok_build hr hn ho hf hm hog himg hlen, rfl⟩

/-- Witness for C5: the amended statement applied to the document with
resolution -1 — the parse succeeds and keeps the negative resolution. -/
theorem resolution_parse_no_sign_check_witness :
    ∃ decl, parseMapDecl "/cfg/m.yaml" negResDoc = Except.ok decl ∧ decl.resolution = -1 :=
  resolution_parse_no_sign_check.2 "/cfg/m.yaml" negResDoc (-1) rfl
    ⟨0, rfl⟩ ⟨65 / 100, rfl⟩ ⟨1 / 5, rfl⟩ ⟨MapMode.TRINARY, rfl⟩ ⟨(0, 0, 0), rfl⟩
    ⟨"m.png", rfl, by decide⟩

/-- Claim C6: the GetMap service callback always returns true (it has no
failure path), answers with the stored grid, leaves the Map unchanged, and
two successive calls return identical grids. -/
theorem mapCallback_pure :
    ∀ m : MapUnit,
      (mapCallback m).1 = true
      ∧ (mapCallback m).2.1 = m.map_resp
      ∧ (mapCallback m).2.2 = m
      ∧ (mapCallback ((mapCallback m).2.2)).2.1 = (mapCallback m).2.1 :=
  fun _ => ⟨rfl, rfl, rfl, rfl⟩

theorem constructMap_ok_inv {fname ns desiredName frameId : String} {fs : FileSys}
    {now : Nat} {m : MapUnit}
    (h : constructMap fname ns desiredName frameId fs now = Except.ok m) :
    ∃ doc decl img, fs.mapYaml fname = some doc ∧ parseMapDecl fname doc = Except.ok decl ∧
      fs.image decl.mapfname = some img ∧ m = mkMapUnit ns desiredName frameId decl img now := by
  unfold constructMap at h
  simp only [exBind_ok_iff, req_ok_iff] at h
  obtain ⟨doc, hdoc, decl, hdecl, img, himg, hok⟩ := h
  exact ⟨doc, decl, img, hdoc, hdecl, himg, (Except.ok.injEq _ _ ▸ hok).symm⟩

/-- Claim C7: a successfully constructed Map exposes exactly the three
endpoints namespace/name/static_map, namespace/name/map_metadata and
namespace/name/map, and each latched channel is published exactly once at
construction. -/
theorem endpoint_names :
    ∀ (fname ns name frame : String) (fs : FileSys) (now : Nat) (m : MapUnit),
      constructMap fname ns name frame fs now = Except.ok m →
      m.service_name = ns ++ "/" ++ name ++ "/" ++ "static_map"
      ∧ m.metadata_topic_name = ns ++ "/" ++ name ++ "/" ++ "map_metadata"
      ∧ m.map_topic_name = ns ++ "/" ++ name ++ "/" ++ "map"
      ∧ m.published_metadata.length = 1
      ∧ m.published_maps.length = 1 := by
  intro fname ns name frame fs now m h
  obtain ⟨doc, decl, img, _, _, _, hm⟩ := constructMap_ok_inv h
  rw [hm]
  exact ⟨rfl, rfl, rfl, rfl, rfl⟩

/-- Witness for C7 at the concrete successful build of fsGood. -/
theorem endpoint_names_witness :
    unitGood.service_name = "ns0" ++ "/" ++ "m0" ++ "/" ++ "static_map"
    ∧ unitGood.metadata_topic_name = "ns0" ++ "/" ++ "m0" ++ "/" ++ "map_metadata"
    ∧ unitGood.map_topic_name = "ns0" ++ "/" ++ "m0" ++ "/" ++ "map"
    ∧ unitGood.published_metadata.length = 1
    ∧ unitGood.published_maps.length = 1 :=
  endpoint_names "/cfg/m.yaml" "ns0" "m0" "map" fsGood 0 unitGood rfl

/-- Claim C10: for every constructed Map, the metadata message published
on the map_metadata channel is exactly the info field of the grid
published on the map channel and returned by the GetMap callback. -/
theorem metadata_consistency :
    ∀ (fname ns name frame : String) (fs : FileSys) (now : Nat) (m : MapUnit),
      constructMap fname ns name frame fs now = Except.ok m →
      m.meta_data_message = m.map_resp.info
      ∧ m.published_metadata = [m.map_resp.info]
      ∧ m.published_maps = [m.map_resp]
      ∧ (mapCallback m).2.1.info = m.meta_data_message := by
  intro fname ns name frame fs now m h
  obtain ⟨doc, decl, img, _, _, _, hm⟩ := constructMap_ok_inv h
  rw [hm]
  exact ⟨rfl, rfl, rfl, rfl⟩

/-- Witness for C10 at the concrete successful build of fsGood. -/
theorem metadata_consistency_witness :
    unitGood.meta_data_message = unitGood.map_resp.info
    ∧ unitGood.published_metadata = [unitGood.map_resp.info]
    ∧ unitGood.published_maps = [unitGood.map_resp]
    ∧ (mapCallback unitGood).2.1.info = unitGood.meta_data_message :=
  metadata_consistency "/cfg/m.yaml" "ns0" "m0" "map" fsGood 0 unitGood rfl

theorem constructMap_frame {fname ns desiredName frameId : String} {fs : FileSys}
    {now : Nat} {m : MapUnit}
    (h : constructMap fname ns desiredName frameId fs now = Except.ok m) :
    m.map_resp.frame_id = frameId := by
  obtain ⟨doc, decl, img, _, _, _, hm⟩ := constructMap_ok_inv h
  rw [hm]
  rfl

theorem buildMapsList_frames {fs : FileSys} {now : Nat} {ns frame : String} :
    ∀ (entries : List (String × String)) (ms : List MapUnit),
      buildMapsList fs now ns frame entries = Except.ok ms →
      ∀ m ∈ ms, m.map_resp.frame_id = frame := by
  intro entries
  induction entries with
  | nil =>
    intro ms h m hm
    unfold buildMapsList at h
    rw [← Except.ok.inj h] at hm
    cases hm
  | cons head rest ih =>
    obtain ⟨name0, mpath0⟩ := head
    intro ms h m hm
    unfold buildMapsList at h
    simp only [exBind_ok_iff] at h
    obtain ⟨m0, hm0, ms1, hms1, hcons⟩ := h
    rw [← Except.ok.inj hcons] at hm
    rcases List.mem_cons.mp hm with heq | hmem
    · rw [heq]
      exact constructMap_frame hm0
    · exact ih ms1 hms1 m hmem

/-- Claim C8 as amended: the per-namespace coordinate frame is read from
the field named global_frame (not global_frame_id); a namespace record
lacking that field makes the build fail with the uncaught-conversion
error, and the frame so read becomes the header frame_id of every map
built for that namespace. -/
theorem global_frame_field :
    (∀ (fs : FileSys) (now : Nat) (nsName : String) (r : NamespaceYaml)
       (rest : List (String × NamespaceYaml)), getGlobalFrame r = none →
       buildNamespaces fs now ((nsName, r) :: rest) = Except.error frameErrMsg)
    ∧ (∀ (r : NamespaceYaml) (frame : String), getGlobalFrame r = some frame →
         r.fields.lookup "global_frame" = some frame)
    ∧ (∀ (fs : FileSys) (now : Nat) (ns frame : String) (entries : List (String × String))
         (ms : List MapUnit), buildMapsList fs now ns frame entries = Except.ok ms →
         ∀ m ∈ ms, m.map_resp.frame_id = frame)
    ∧ (∀ (fs : FileSys) (now : Nat) (nsName frame : String) (r : NamespaceYaml)
         (rest : List (String × NamespaceYaml)), getGlobalFrame r = some frame →
         buildNamespaces fs now ((nsName, r) :: rest) =
           exBind (buildMapsList fs now nsName frame r.maps) (fun ms =>
             exBind (buildNamespaces fs now rest) (fun ms2 => Except.ok (ms ++ ms2)))) := by
  refine ⟨?_, ?_, ?_, ?_⟩
  · intro fs now nsName r rest h
    simp [buildNamespaces, h]
  · intro r frame h
    exact h
  · intro fs now ns frame entries ms h
    exact buildMapsList_frames entries ms h
  · intro fs now nsName frame r rest h
    simp [buildNamespaces, h]

/-- Counterexample to C8: a namespace record carrying global_frame_id (the
field the claim names) fails to build, while the same record keyed
global_frame succeeds — the parser reads global_frame. -/
theorem global_frame_field_cex :
    exOk (buildNamespaces fsGood 0
      [("ns0", { fields := [("global_frame_id", "map")], maps := [] })]) = false
    ∧ buildNamespaces fsGood 0
        [("ns0", { fields := [("global_frame", "map")], maps := [] })] = Except.ok [] :=
  ⟨rfl, rfl⟩

/-- Witness for C8: a record without the global_frame field is a build
error, and the frame read from nsGood reaches the built map's header. -/
theorem global_frame_field_witness :
    buildNamespaces fsGood 0 [("nsX", { fields := [], maps := [] })] = Except.error frameErrMsg
    ∧ unitGood.map_resp.frame_id = "map" :=
  ⟨global_frame_field.1 fsGood 0 "nsX" { fields := [], maps := [] } [] rfl,
   global_frame_field.2.2.1 fsGood 0 "ns0" "map" [("m0", "/cfg/m.yaml")] [unitGood] rfl
     unitGood (by simp)⟩

/-- Counterexample to C9: with the top-level file unreadable the process
exits with -1 but prints the could-not-open error, not the usage message. -/
theorem startup_usage_cex :
    runMain ["cfg.yaml"] fsEmpty 0 =
      MainOutcome.exited (-1) "Multimap_server could not open cfg.yaml."
    ∧ ¬ "Multimap_server could not open cfg.yaml." = usageMsg :=
  ⟨rfl, by decide⟩

/-- Claim C9 as amended: an argument count other than one exits with -1
printing the usage message; an unreadable top-level file exits with -1
printing an error naming the file; every exit outcome of main carries a
non-zero status. -/
theorem startup_errors :
    (∀ (args : List String) (fs : FileSys) (now : Nat), ¬ args.length = 1 →
       runMain args fs now = MainOutcome.exited (-1) usageMsg)
    ∧ (∀ (fname : String) (fs : FileSys) (now : Nat), fs.top fname = none →
         runMain [fname] fs now =
           MainOutcome.exited (-1) ("Multimap_server could not open " ++ fname ++ "."))
    ∧ (∀ (args : List String) (fs : FileSys) (now : Nat) (c : Int) (msg : String),
         runMain args fs now = MainOutcome.exited c msg → ¬ c = 0) := by
  refine ⟨?_, ?_, ?_⟩
  · intro args fs now h
    match args with
    | [] => rfl
    | [a] => exact absurd rfl h
    | a :: b :: t => rfl
  · intro fname fs now h
    simp [runMain, h]
  · intro args fs now c msg h
    match args with
    | [] =>
      simp only [runMain] at h
      injection h with h1 _
      rw [← h1]
      decide
    | [a] =>
      cases htop : fs.top a with
      | none =>
        simp only [runMain, htop] at h
        injection h with h1 _
        rw [← h1]
        decide
      | some doc =>
        cases hb : buildNamespaces fs now doc with
        | error e =>
          simp only [runMain, htop, hb] at h
          injection h with h1 _
          rw [← h1]
          decide
        | ok units =>
          simp only [runMain, htop, hb] at h
          exact MainOutcome.noConfusion h
    | a :: b :: t =>
      simp only [runMain] at h
      injection h with h1 _
      rw [← h1]
      decide

/-- Witness for C9: zero arguments print the usage message; a missing file
prints the could-not-open error; the exit status is non-zero. -/
theorem startup_errors_witness :
    runMain [] fsEmpty 0 = MainOutcome.exited (-1) usageMsg
    ∧ runMain ["missing.yaml"] fsEmpty 0 =
        MainOutcome.exited (-1) ("Multimap_server could not open " ++ "missing.yaml" ++ ".")
    ∧ ¬ (-1 : Int) = 0 :=
  ⟨startup_errors.1 [] fsEmpty 0 (by decide),
   startup_errors.2.1 "missing.yaml" fsEmpty 0 rfl,
   startup_errors.2.2 [] fsEmpty 0 (-1) usageMsg
     (startup_errors.1 [] fsEmpty 0 (by decide))⟩
